import Mathlib

/-!
Shallow embedding of `agent.py` (ProfessorNotificationAgent).

The program has four operations:
  * `get_location_status` — queries an IP-geolocation provider, computes a
    planar distance to the fixed school coordinates and classifies
    `at_school`; all faults are caught and turned into an error dict;
  * `send_professor_email` — checks the Gmail credentials, builds a MIME
    message and sends it over one SMTP session; faults are caught;
  * `check_monday_1pm` — the day-of-week / hour gate;
  * `run_notification_check` — the trigger handler composing the above.

External effects are passed in explicitly: the geolocation lookup outcome
(`FetchOutcome`), the SMTP session outcome (`SmtpOutcome`) and the current
time (`Now`).  Functions return, next to the source's result dictionaries,
a trace of the observable actions (messages built, SMTP sessions opened,
notifier invocations), so that "no network call happened" is a statement
about the returned trace.  Raising and catching of Python exceptions is
modelled with `Except String`: `_attempt` functions are the bodies of the
`try` blocks (they can end in `Except.error`), and the plain functions add
the `except` handler of the source.
-/

/-- Fixed configuration from `ProfessorNotificationAgent.__init__`:
`self.school_coordinates["lat"]` (Tokyo Kaiyo University, Etchujima). -/
def school_lat : ℚ := 35.6699

/-- `self.school_coordinates["lon"]`. -/
def school_lon : ℚ := 139.7951

/-- `self.professor_email`. -/
def professor_email : String := "kubo@logopt.com"

/-- `self.student_id`. -/
def student_id : String := "2323025"

/-- `self.student_name`. -/
def student_name : String := "鈴木夏大"

/-- The per-process state that is not a fixed literal: the Gmail credentials
read from the environment by `__init__` (`os.getenv` returns `None` when the
variable is unset, hence `Option`). -/
structure Agent where
  gmail_user : Option String
  gmail_password : Option String
deriving DecidableEq, Repr

/-- Python truthiness of `not x` for an `Optional[str]`: `None` and the empty
string are falsy, every other string is truthy. -/
def falsy : Option String → Bool
  | none => true
  | some s => s == ""

/-- The parsed JSON object returned by `http://ip-api.com/json/`.  Each field
the code accesses is `Option`al: a missing key raises `KeyError` on `data[k]`
and is substituted by `data.get(k, default)`. -/
structure ProviderData where
  status : Option String
  lat : Option ℚ
  lon : Option ℚ
  city : Option String
  country : Option String
deriving DecidableEq, Repr

/-- Outcome of `requests.get(...)` followed by `response.json()`: either the
call raises (network error, timeout, malformed/non-JSON body) with a message,
or it returns a parsed object. -/
inductive FetchOutcome where
  | raises (msg : String)
  | returns (data : ProviderData)
deriving DecidableEq, Repr

/-- The dictionary returned by `get_location_status`.  The source stores
`distance_from_school = (lat_diff**2 + lon_diff**2)**0.5`; to keep the
structure computable we store the exact radicand `lat_diff**2 + lon_diff**2`
in `distance_from_school_sq`, and `LocationResult.distance_from_school`
below recovers the source's square-root value. -/
structure LocationResult where
  status : String
  at_school : Bool
  location_description : String
  coordinates : Option (ℚ × ℚ)
  distance_from_school_sq : Option ℚ
  error : Option String
deriving DecidableEq, Repr

/-- The source's `distance_from_school` field: the square root of the stored
radicand. -/
noncomputable def LocationResult.distance_from_school (r : LocationResult) :
    Option ℝ :=
  r.distance_from_school_sq.map (fun q => Real.sqrt (q : ℝ))

/-- `lat_diff = abs(school_lat - user_lat)`, `lon_diff = abs(school_lon -
user_lon)`, and the radicand `lat_diff**2 + lon_diff**2` of the source's
`distance` expression. -/
def distance_sq (user_lat user_lon : ℚ) : ℚ :=
  |school_lat - user_lat| ^ 2 + |school_lon - user_lon| ^ 2

/-- The source's `distance = (lat_diff**2 + lon_diff**2)**0.5`, as a real
number. -/
noncomputable def distance_from_school (user_lat user_lon : ℚ) : ℝ :=
  Real.sqrt ((distance_sq user_lat user_lon : ℚ) : ℝ)

/-- The source's classification `at_school = distance < 0.01`.  Both sides of
that comparison are non-negative, so it is equivalent to comparing the
radicand with `0.01**2` (proved in `at_school_iff_sqrt_lt` below); we use the
squared form to stay inside computable rational arithmetic. -/
def at_school_of (user_lat user_lon : ℚ) : Bool :=
  decide (distance_sq user_lat user_lon < (0.01 : ℚ) ^ 2)

/-- The `except` branch of `get_location_status`: the error dictionary
(`status="error"`, `at_school=False`, fixed description, `error=str(e)`). -/
def location_error_result (e : String) : LocationResult :=
  { status := "error"
    at_school := false
    location_description := "位置情報取得失敗（学校外として処理）"
    coordinates := none
    distance_from_school_sq := none
    error := some e }

/-- The body of the `try` block of `get_location_status`: fetch, read
`data["status"]` (KeyError when absent), on `"success"` read `lat`/`lon`
(KeyError when absent), compute the distance and build the success
dictionary; any other status raises `Exception("位置情報取得失敗")`. -/
def get_location_status_attempt (f : FetchOutcome) :
    Except String LocationResult :=
  match f with
  | FetchOutcome.raises msg => Except.error msg
  | FetchOutcome.returns data =>
    match data.status with
    | none => Except.error "'status'"
    | some s =>
      if s == "success" then
        match data.lat with
        | none => Except.error "'lat'"
        | some user_lat =>
          match data.lon with
          | none => Except.error "'lon'"
          | some user_lon =>
            Except.ok
              { status := "success"
                at_school := at_school_of user_lat user_lon
                location_description :=
                  (data.city.getD "不明") ++ ", " ++ (data.country.getD "不明")
                coordinates := some (user_lat, user_lon)
                distance_from_school_sq := some (distance_sq user_lat user_lon)
                error := none }
      else
        Except.error "位置情報取得失敗"

/-- `get_location_status`: the `try` body with its catch-all `except` handler,
which converts every raised fault into the error dictionary. -/
def get_location_status (f : FetchOutcome) : LocationResult :=
  match get_location_status_attempt f with
  | Except.ok r => r
  | Except.error e => location_error_result e

/-- One body part attached to the message: `MIMEText(body, "plain", "utf-8")`. -/
structure MimePart where
  content : String
  subtype : String
  charset : String
deriving DecidableEq, Repr

/-- The message built by `send_professor_email`.  `multipart` records which
container class was instantiated: the source uses `MIMEMultipart()`, so the
flag is `true` there; a bare `MIMEText` message would have it `false`. -/
structure MimeMessage where
  multipart : Bool
  From : String
  To : String
  Subject : String
  parts : List MimePart
deriving DecidableEq, Repr

/-- A message is single-part when it is not a multipart container. -/
def MimeMessage.single_part (m : MimeMessage) : Bool :=
  !m.multipart

/-- The dictionary returned by `send_professor_email`. -/
structure EmailResult where
  status : String
  message : String
deriving DecidableEq, Repr

/-- Outcome of the SMTP session (`smtplib.SMTP(...)`, `starttls`, `login`,
`send_message`): either some step raises, or the message is delivered. -/
inductive SmtpOutcome where
  | raises (msg : String)
  | sends
deriving DecidableEq, Repr

/-- Observable actions of one `send_professor_email` call: the MIME message
built (if any) and how many SMTP sessions were opened. -/
structure SendTrace where
  message_built : Option MimeMessage
  smtp_sessions : Nat
deriving DecidableEq, Repr

/-- The `try` body of `send_professor_email`, with the trace of its side
effects.  The credentials guard returns the error dictionary without raising
and before any message is built or session opened; otherwise the message is
built, one session is opened, and a fault in the session leaves the
`Except.error` to the handler while the side effects remain on the trace. -/
def send_professor_email_attempt (a : Agent)
    (professor_email_address subject body : String) (smtp : SmtpOutcome) :
    Except String EmailResult × SendTrace :=
  if falsy a.gmail_user || falsy a.gmail_password then
    (Except.ok
      { status := "error"
        message := "Gmail認証情報が設定されていません (.envファイルを確認してください)" },
     { message_built := none, smtp_sessions := 0 })
  else
    let msg : MimeMessage :=
      { multipart := true
        From := a.gmail_user.getD ""
        To := professor_email_address
        Subject := subject
        parts := [{ content := body, subtype := "plain", charset := "utf-8" }] }
    match smtp with
    | SmtpOutcome.sends =>
      (Except.ok
        { status := "success"
          message := professor_email_address ++ " 教授にメールを送信しました。" },
       { message_built := some msg, smtp_sessions := 1 })
    | SmtpOutcome.raises e =>
      (Except.error e, { message_built := some msg, smtp_sessions := 1 })

/-- `send_professor_email`: the `try` body with its catch-all `except`
handler, which converts a raised fault into
`{"status": "error", "message": "メール送信失敗: " + str(e)}`. -/
def send_professor_email (a : Agent)
    (professor_email_address subject body : String) (smtp : SmtpOutcome) :
    EmailResult × SendTrace :=
  match send_professor_email_attempt a professor_email_address subject body smtp with
  | (Except.ok r, t) => (r, t)
  | (Except.error e, t) =>
    ({ status := "error", message := "メール送信失敗: " ++ e }, t)

/-- The current time, as far as the program reads it: `datetime.now()`
exposes `weekday()` (Monday = 0), `hour` and `minute`. -/
structure Now where
  weekday : Nat
  hour : Nat
  minute : Nat
deriving DecidableEq, Repr

/-- `check_monday_1pm`: `now.weekday() == 0 and now.hour == 13`. -/
def check_monday_1pm (now : Now) : Bool :=
  (now.weekday == 0) && (now.hour == 13)

/-- One invocation of the Notifier recorded by the trigger handler: the
arguments passed to `send_professor_email`. -/
structure NotifierCall where
  address : String
  subject : String
  body : String
deriving DecidableEq, Repr

/-- Observable actions of one `run_notification_check` run. -/
structure RunTrace where
  location_checks : Nat
  notifier_calls : List NotifierCall
  smtp_sessions : Nat
deriving DecidableEq, Repr

/-- What one `run_notification_check` run produced: the location result and
email result it obtained (when the corresponding call was reached) and the
trace of its actions. -/
structure RunOutcome where
  location_result : Option LocationResult
  email_result : Option EmailResult
  trace : RunTrace
deriving DecidableEq, Repr

/-- The fixed subject of the notification email. -/
def notification_subject : String := "本日の授業について"

/-- The fixed body of the notification email:
`f"久保先生、{self.student_id}の{self.student_name}です。本日の授業は体調不良のため欠席させていただきます。"`. -/
def notification_body : String :=
  "久保先生、" ++ student_id ++ "の" ++ student_name ++
    "です。本日の授業は体調不良のため欠席させていただきます。"

/-- `run_notification_check`: gate on `check_monday_1pm`, then location
check, then — only when `at_school` is false — one Notifier call with the
fixed subject and body. -/
def run_notification_check (a : Agent) (now : Now) (f : FetchOutcome)
    (smtp : SmtpOutcome) : RunOutcome :=
  if !(check_monday_1pm now) then
    { location_result := none
      email_result := none
      trace := { location_checks := 0, notifier_calls := [], smtp_sessions := 0 } }
  else
    let location_result := get_location_status f
    if location_result.at_school then
      { location_result := some location_result
        email_result := none
        trace := { location_checks := 1, notifier_calls := [], smtp_sessions := 0 } }
    else
      let sent := send_professor_email a professor_email notification_subject
        notification_body smtp
      { location_result := some location_result
        email_result := some sent.1
        trace :=
          { location_checks := 1
            notifier_calls :=
              [{ address := professor_email
                 subject := notification_subject
                 body := notification_body }]
            smtp_sessions := sent.2.smtp_sessions } }

/-- `run_notification_check` written in the exception monad: the handler has
no `try`/`except` of its own, so a fault raised by a sub-call would propagate
out of the `do` block as `Except.error`.  Its sub-calls are the catch-wrapped
components, and `run_notification_check_total` below proves the block always
ends in `Except.ok`. -/
def run_notification_check_exc (a : Agent) (now : Now) (f : FetchOutcome)
    (smtp : SmtpOutcome) : Except String RunOutcome := do
  if !(check_monday_1pm now) then
    pure { location_result := none
           email_result := none
           trace := { location_checks := 0, notifier_calls := [], smtp_sessions := 0 } }
  else
    let location_result := get_location_status f
    if location_result.at_school then
      pure { location_result := some location_result
             email_result := none
             trace := { location_checks := 1, notifier_calls := [], smtp_sessions := 0 } }
    else
      let sent := send_professor_email a professor_email notification_subject
        notification_body smtp
      pure { location_result := some location_result
             email_result := some sent.1
             trace :=
               { location_checks := 1
                 notifier_calls :=
                   [{ address := professor_email
                      subject := notification_subject
                      body := notification_body }]
                 smtp_sessions := sent.2.smtp_sessions } }

/-! ### Helper lemmas -/

/-- The gate is open exactly on Monday (weekday 0) at hour 13; the minute is
never consulted. -/
lemma check_monday_1pm_iff (now : Now) :
    check_monday_1pm now = true ↔ now.weekday = 0 ∧ now.hour = 13 := by
  simp [check_monday_1pm]

/-- The squared-radicand comparison used by `at_school_of` agrees with the
source's comparison `distance < 0.01` of the square root. -/
lemma at_school_iff_sqrt_lt (user_lat user_lon : ℚ) :
    at_school_of user_lat user_lon = true ↔
      distance_from_school user_lat user_lon < 0.01 := by
  rw [at_school_of, decide_eq_true_iff, distance_from_school,
    Real.sqrt_lt' (by norm_num : (0:ℝ) < 0.01)]
  have h : ((0.01 : ℝ)) ^ 2 = (((0.01 : ℚ) ^ 2 : ℚ) : ℝ) := by
    push_cast
    norm_num
  rw [h, Rat.cast_lt]

/-- Evaluation of `get_location_status` on a `"success"` response carrying
coordinates. -/
lemma get_location_status_success_eq (user_lat user_lon : ℚ)
    (city country : Option String) :
    get_location_status (FetchOutcome.returns
      { status := some "success", lat := some user_lat, lon := some user_lon,
        city := city, country := country }) =
      { status := "success"
        at_school := at_school_of user_lat user_lon
        location_description := (city.getD "不明") ++ ", " ++ (country.getD "不明")
        coordinates := some (user_lat, user_lon)
        distance_from_school_sq := some (distance_sq user_lat user_lon)
        error := none } := by
  simp [get_location_status, get_location_status_attempt]

/-- Every result the `try` body of `get_location_status` returns normally is
the success dictionary. -/
lemma get_location_status_attempt_ok_status (f : FetchOutcome)
    (r : LocationResult) (h : get_location_status_attempt f = Except.ok r) :
    r.status = "success" := by
  rcases f with msg | ⟨st, lat, lon, city, country⟩
  · exact absurd h (by simp [get_location_status_attempt])
  · rcases st with _ | s
    · exact absurd h (by simp [get_location_status_attempt])
    · by_cases hs : (s == "success") = true
      · rcases lat with _ | user_lat
        · exact absurd h (by simp [get_location_status_attempt, hs])
        · rcases lon with _ | user_lon
          · exact absurd h (by simp [get_location_status_attempt, hs])
          · simp only [get_location_status_attempt, hs, if_true,
              Except.ok.injEq] at h
            rw [← h]
      · exact absurd h (by simp [get_location_status_attempt, hs])

/-- When the try body raises, `get_location_status` returns the error
dictionary built from the exception message. -/
lemma get_location_status_of_attempt_error (f : FetchOutcome) (e : String)
    (h : get_location_status_attempt f = Except.error e) :
    get_location_status f = location_error_result e := by
  unfold get_location_status
  rw [h]

/-- An error-status result of `get_location_status` is the error dictionary:
`at_school` is false and the description is the fixed failure text. -/
lemma get_location_status_error_shape (f : FetchOutcome)
    (h : (get_location_status f).status = "error") :
    (get_location_status f).at_school = false ∧
      (get_location_status f).location_description =
        "位置情報取得失敗（学校外として処理）" := by
  cases hA : get_location_status_attempt f with
  | ok r =>
    have hr : get_location_status f = r := by
      unfold get_location_status
      rw [hA]
    rw [hr] at h
    have := get_location_status_attempt_ok_status f r hA
    rw [this] at h
    exact absurd h (by decide)
  | error e =>
    rw [get_location_status_of_attempt_error f e hA]
    exact ⟨rfl, rfl⟩

/-- Concrete evaluation: the reported point (35.0, 140.0) of the spec's
scenario is classified absent (the radicand is 0.49075002, far above
0.0001). -/
lemma at_school_of_35_140 : at_school_of 35 140 = false := by
  have h1 : (school_lat - 35 : ℚ) = 0.6699 := by
    rw [school_lat]
    norm_num
  have h2 : (school_lon - 140 : ℚ) = -0.2049 := by
    rw [school_lon]
    norm_num
  rw [at_school_of, distance_sq, h1, h2,
    abs_of_pos (by norm_num : (0.6699 : ℚ) > 0),
    abs_of_neg (by norm_num : (-0.2049 : ℚ) < 0)]
  rw [decide_eq_false_iff_not, not_lt]
  norm_num

/-- Concrete evaluation: the lookup with reported point (35.0, 140.0)
succeeds and classifies the device as absent. -/
lemma get_location_status_absent_35_140 :
    (get_location_status (FetchOutcome.returns
      { status := some "success", lat := some 35, lon := some 140,
        city := some "Tokyo", country := some "Japan" })).at_school = false := by
  rw [get_location_status_success_eq]
  exact at_school_of_35_140

/-! ### Claim theorems -/

/-- C10: the gate `check_monday_1pm` is true exactly when the weekday is
Monday (0) and the hour is 13; the minute is never consulted, so every minute
from 13:00 through 13:59 on a Monday passes the gate. -/
theorem c10_gate_ignores_minute :
    (∀ now : Now, check_monday_1pm now = true ↔
      now.weekday = 0 ∧ now.hour = 13) ∧
    (∀ minute : Nat,
      check_monday_1pm { weekday := 0, hour := 13, minute := minute } = true) := by
  constructor
  · exact check_monday_1pm_iff
  · intro minute
    simp [check_monday_1pm]

/-- C6: invoked at a non-matching day/hour, the trigger handler returns with
no location check, no notifier call and no SMTP session. -/
theorem c6_gate_closed_no_calls (a : Agent) (now : Now) (f : FetchOutcome)
    (smtp : SmtpOutcome) (h : check_monday_1pm now = false) :
    run_notification_check a now f smtp =
      { location_result := none
        email_result := none
        trace := { location_checks := 0, notifier_calls := [], smtp_sessions := 0 } } := by
  simp [run_notification_check, h]

/-- C6 witness: simulated "now" = Tuesday 13:00 makes no calls. -/
theorem c6_gate_closed_no_calls_witness :
    check_monday_1pm { weekday := 1, hour := 13, minute := 0 } = false ∧
      run_notification_check { gmail_user := none, gmail_password := none }
          { weekday := 1, hour := 13, minute := 0 }
          (FetchOutcome.raises "unreachable") SmtpOutcome.sends =
        { location_result := none
          email_result := none
          trace := { location_checks := 0, notifier_calls := [], smtp_sessions := 0 } } :=
  ⟨rfl, c6_gate_closed_no_calls _ _ _ _ rfl⟩

/-- C4: with absent (falsy) credentials, `send_professor_email` returns the
error dictionary at once: no message is built and no SMTP session is opened. -/
theorem c4_missing_credentials_no_network (a : Agent)
    (professor_email_address subject body : String) (smtp : SmtpOutcome)
    (h : (falsy a.gmail_user || falsy a.gmail_password) = true) :
    (send_professor_email a professor_email_address subject body smtp).1.status
        = "error" ∧
    (send_professor_email a professor_email_address subject body smtp).2.smtp_sessions
        = 0 ∧
    (send_professor_email a professor_email_address subject body smtp).2.message_built
        = none := by
  simp [send_professor_email, send_professor_email_attempt, h]

/-- C4 witness: unset `GMAIL_USER` yields the error result with zero SMTP
sessions. -/
theorem c4_missing_credentials_no_network_witness :
    (send_professor_email { gmail_user := none, gmail_password := some "pw" }
        "kubo@logopt.com" "subject" "body" SmtpOutcome.sends).1.status = "error" ∧
    (send_professor_email { gmail_user := none, gmail_password := some "pw" }
        "kubo@logopt.com" "subject" "body" SmtpOutcome.sends).2.smtp_sessions = 0 ∧
    (send_professor_email { gmail_user := none, gmail_password := some "pw" }
        "kubo@logopt.com" "subject" "body" SmtpOutcome.sends).2.message_built = none :=
  c4_missing_credentials_no_network _ _ _ _ _ rfl

/-- C5: no fault propagates out of the trigger handler: each component
converts a raised exception into its error dictionary (keeping the side
effects already performed on the trace), and the handler itself, written in
the exception monad, ends in `Except.ok` on every control path. -/
theorem c5_faults_become_results (a : Agent) (now : Now) (f : FetchOutcome)
    (professor_email_address subject body : String) (smtp : SmtpOutcome) :
    (∀ e, get_location_status_attempt f = Except.error e →
      get_location_status f = location_error_result e) ∧
    (∀ e t, send_professor_email_attempt a professor_email_address subject body smtp
          = (Except.error e, t) →
      send_professor_email a professor_email_address subject body smtp =
        ({ status := "error", message := "メール送信失敗: " ++ e }, t)) ∧
    run_notification_check_exc a now f smtp =
      Except.ok (run_notification_check a now f smtp) := by
  refine ⟨fun e h => get_location_status_of_attempt_error f e h, fun e t h => ?_, ?_⟩
  · unfold send_professor_email
    rw [h]
  · cases hg : check_monday_1pm now
    · simp only [run_notification_check_exc, run_notification_check, hg]
      rfl
    · cases hs : (get_location_status f).at_school
      · simp only [run_notification_check_exc, run_notification_check, hg, hs,
          Bool.not_true, Bool.false_eq_true, if_false]
        rfl
      · simp only [run_notification_check_exc, run_notification_check, hg, hs,
          Bool.not_true, Bool.false_eq_true, if_false, if_true]
        rfl

/-- C5 witness: a raising geolocation lookup is converted into the error
dictionary rather than propagated. -/
theorem c5_faults_become_results_witness :
    get_location_status (FetchOutcome.raises "connection timed out") =
      location_error_result "connection timed out" :=
  (c5_faults_become_results { gmail_user := none, gmail_password := none }
    { weekday := 0, hour := 13, minute := 0 }
    (FetchOutcome.raises "connection timed out") "a" "s" "b"
    SmtpOutcome.sends).1 "connection timed out" rfl

/-- C1: when the gate holds, the handler calls the Notifier exactly once if
`at_school` is false (in particular whenever the checker's status is
"error"), and never calls it if `at_school` is true. -/
theorem c1_notifier_call_count (a : Agent) (now : Now) (f : FetchOutcome)
    (smtp : SmtpOutcome) (hg : check_monday_1pm now = true) :
    ((get_location_status f).at_school = false →
      (run_notification_check a now f smtp).trace.notifier_calls.length = 1) ∧
    ((get_location_status f).at_school = true →
      (run_notification_check a now f smtp).trace.notifier_calls.length = 0) ∧
    ((get_location_status f).status = "error" →
      (run_notification_check a now f smtp).trace.notifier_calls.length = 1) := by
  refine ⟨fun hs => ?_, fun hs => ?_, fun hs => ?_⟩
  · simp [run_notification_check, hg, hs]
  · simp [run_notification_check, hg, hs]
  · have hfalse := (get_location_status_error_shape f hs).1
    simp [run_notification_check, hg, hfalse]

/-- C1 witness: Monday 13:00 with a failing lookup (error status, hence
`at_school = false`) produces exactly one Notifier call. -/
theorem c1_notifier_call_count_witness :
    check_monday_1pm { weekday := 0, hour := 13, minute := 0 } = true ∧
      (get_location_status (FetchOutcome.raises "no route to host")).at_school
          = false ∧
      (run_notification_check { gmail_user := none, gmail_password := none }
          { weekday := 0, hour := 13, minute := 0 }
          (FetchOutcome.raises "no route to host")
          SmtpOutcome.sends).trace.notifier_calls.length = 1 :=
  ⟨rfl, rfl,
    (c1_notifier_call_count { gmail_user := none, gmail_password := none }
      { weekday := 0, hour := 13, minute := 0 }
      (FetchOutcome.raises "no route to host") SmtpOutcome.sends rfl).1 rfl⟩

/-- C8: whenever the handler decides to send, the Notifier is invoked with
the fixed professor address, the subject 本日の授業について, and a body
containing the fixed student identifier and student name. -/
theorem c8_email_fixed_content (a : Agent) (now : Now) (f : FetchOutcome)
    (smtp : SmtpOutcome) (hg : check_monday_1pm now = true)
    (hs : (get_location_status f).at_school = false) :
    (run_notification_check a now f smtp).trace.notifier_calls =
      [{ address := "kubo@logopt.com"
         subject := "本日の授業について"
         body := notification_body }] ∧
    (∃ p q, notification_body = p ++ student_id ++ q) ∧
    (∃ p q, notification_body = p ++ student_name ++ q) ∧
    student_id = "2323025" ∧ student_name = "鈴木夏大" := by
  refine ⟨?_,
    ⟨"久保先生、", "の鈴木夏大です。本日の授業は体調不良のため欠席させていただきます。", ?_⟩,
    ⟨"久保先生、2323025の", "です。本日の授業は体調不良のため欠席させていただきます。", ?_⟩,
    rfl, rfl⟩
  · simp [run_notification_check, hg, hs, professor_email, notification_subject]
  · rfl
  · rfl

/-- C8 witness: Monday 13:00, reported point (35.0, 140.0) (absent), one
Notifier call with the fixed recipient, subject and body. -/
theorem c8_email_fixed_content_witness :
    (run_notification_check { gmail_user := some "u", gmail_password := some "p" }
        { weekday := 0, hour := 13, minute := 0 }
        (FetchOutcome.returns
          { status := some "success", lat := some 35, lon := some 140,
            city := some "Tokyo", country := some "Japan" })
        SmtpOutcome.sends).trace.notifier_calls =
      [{ address := "kubo@logopt.com"
         subject := "本日の授業について"
         body := notification_body }] :=
  (c8_email_fixed_content { gmail_user := some "u", gmail_password := some "p" }
    { weekday := 0, hour := 13, minute := 0 }
    (FetchOutcome.returns
      { status := some "success", lat := some 35, lon := some 140,
        city := some "Tokyo", country := some "Japan" })
    SmtpOutcome.sends rfl get_location_status_absent_35_140).1

/-- C2: every failing lookup — a raising request/parse, or a provider status
other than "success" — yields the error dictionary: `status = "error"`,
`at_school = false`, the fixed failure description; and a raised exception is
always converted to that dictionary rather than propagated. -/
theorem c2_failure_yields_error (f : FetchOutcome) :
    (((∃ e, f = FetchOutcome.raises e) ∨
        (∃ d, f = FetchOutcome.returns d ∧ d.status ≠ some "success")) →
      (get_location_status f).status = "error") ∧
    ((get_location_status f).status = "error" →
      (get_location_status f).at_school = false ∧
      (get_location_status f).location_description =
        "位置情報取得失敗（学校外として処理）") ∧
    (∀ e, get_location_status_attempt f = Except.error e →
      get_location_status f = location_error_result e) := by
  refine ⟨?_, get_location_status_error_shape f,
    fun e h => get_location_status_of_attempt_error f e h⟩
  rintro (⟨e, rfl⟩ | ⟨d, rfl, hd⟩)
  · rfl
  · rcases d with ⟨st, lat, lon, city, country⟩
    rcases st with _ | s
    · rfl
    · have hne : ¬ s = "success" := by
        intro hcontra
        exact hd (by rw [hcontra])
      have hs : (s == "success") = false := by
        simp [hne]
      simp [get_location_status, get_location_status_attempt, hs,
        location_error_result]

/-- C2 witness: a raising lookup yields the error dictionary with
`at_school = false`. -/
theorem c2_failure_yields_error_witness :
    (get_location_status (FetchOutcome.raises "ConnectionError")).status
        = "error" ∧
    (get_location_status (FetchOutcome.raises "ConnectionError")).at_school
        = false :=
  ⟨(c2_failure_yields_error (FetchOutcome.raises "ConnectionError")).1
      (Or.inl ⟨"ConnectionError", rfl⟩),
    ((c2_failure_yields_error (FetchOutcome.raises "ConnectionError")).2.1
      ((c2_failure_yields_error (FetchOutcome.raises "ConnectionError")).1
        (Or.inl ⟨"ConnectionError", rfl⟩))).1⟩

/-- C3: on a successful response with coordinates, the stored distance is
sqrt((lat_ref − lat)² + (lon_ref − lon)²) against the fixed reference point
and `at_school` is exactly `distance < 0.01`; the reference point itself
gives distance 0 and `at_school = true`, and any pair at distance ≥ 0.01
gives `at_school = false`. -/
theorem c3_distance_classification (user_lat user_lon : ℚ)
    (city country : Option String) :
    ((get_location_status (FetchOutcome.returns
        { status := some "success", lat := some user_lat, lon := some user_lon,
          city := city, country := country })).distance_from_school =
      some (distance_from_school user_lat user_lon)) ∧
    (distance_from_school user_lat user_lon =
      Real.sqrt (((school_lat - user_lat : ℚ) : ℝ) ^ 2 +
        ((school_lon - user_lon : ℚ) : ℝ) ^ 2)) ∧
    ((get_location_status (FetchOutcome.returns
        { status := some "success", lat := some user_lat, lon := some user_lon,
          city := city, country := country })).at_school = true ↔
      distance_from_school user_lat user_lon < 0.01) ∧
    (user_lat = school_lat ∧ user_lon = school_lon →
      distance_from_school user_lat user_lon = 0 ∧
      (get_location_status (FetchOutcome.returns
        { status := some "success", lat := some user_lat, lon := some user_lon,
          city := city, country := country })).at_school = true) ∧
    (0.01 ≤ distance_from_school user_lat user_lon →
      (get_location_status (FetchOutcome.returns
        { status := some "success", lat := some user_lat, lon := some user_lon,
          city := city, country := country })).at_school = false) := by
  have hrec := get_location_status_success_eq user_lat user_lon city country
  have hiff : (get_location_status (FetchOutcome.returns
      { status := some "success", lat := some user_lat, lon := some user_lon,
        city := city, country := country })).at_school = true ↔
      distance_from_school user_lat user_lon < 0.01 := by
    rw [hrec]
    exact at_school_iff_sqrt_lt user_lat user_lon
  refine ⟨?_, ?_, hiff, ?_, ?_⟩
  · rw [hrec]
    simp [LocationResult.distance_from_school, distance_from_school]
  · rw [distance_from_school, distance_sq]
    push_cast
    rw [sq_abs, sq_abs]
  · rintro ⟨h1, h2⟩
    subst h1
    subst h2
    have hzero : distance_sq school_lat school_lon = 0 := by
      rw [distance_sq, sub_self, sub_self, abs_zero]
      norm_num
    have hd : distance_from_school school_lat school_lon = 0 := by
      rw [distance_from_school, hzero]
      simp
    refine ⟨hd, hiff.mpr ?_⟩
    rw [hd]
    norm_num
  · intro h
    by_cases hb : (get_location_status (FetchOutcome.returns
        { status := some "success", lat := some user_lat, lon := some user_lon,
          city := city, country := country })).at_school = true
    · exact absurd (hiff.mp hb) (not_lt.mpr h)
    · simpa using hb

/-- C3 witness: coordinates equal to the reference point give distance 0 and
`at_school = true`. -/
theorem c3_distance_classification_witness :
    distance_from_school school_lat school_lon = 0 ∧
      (get_location_status (FetchOutcome.returns
        { status := some "success", lat := some school_lat,
          lon := some school_lon, city := none, country := none })).at_school
        = true :=
  (c3_distance_classification school_lat school_lon none none).2.2.2.1 ⟨rfl, rfl⟩

/-- C9: a "success" response missing `city` or `country` still yields a
success result, with 不明 substituted in the description; a "success"
response missing `lat` or `lon` yields `status = "error"` with
`at_school = false`. -/
theorem c9_missing_fields (d : ProviderData) (user_lat user_lon : ℚ)
    (city country : Option String) :
    ((get_location_status (FetchOutcome.returns
        { status := some "success", lat := some user_lat, lon := some user_lon,
          city := city, country := country })).status = "success" ∧
      (get_location_status (FetchOutcome.returns
        { status := some "success", lat := some user_lat, lon := some user_lon,
          city := city, country := country })).location_description =
        (city.getD "不明") ++ ", " ++ (country.getD "不明")) ∧
    (d.status = some "success" → (d.lat = none ∨ d.lon = none) →
      (get_location_status (FetchOutcome.returns d)).status = "error" ∧
      (get_location_status (FetchOutcome.returns d)).at_school = false) := by
  refine ⟨⟨?_, ?_⟩, fun hst hmiss => ?_⟩
  · rw [get_location_status_success_eq]
  · rw [get_location_status_success_eq]
  · rcases d with ⟨st, lat, lon, city2, country2⟩
    have hst2 : st = some "success" := hst
    subst hst2
    rcases hmiss with h | h
    · rcases lat with _ | la
      · simp [get_location_status, get_location_status_attempt,
          location_error_result]
      · exact Option.noConfusion h
    · rcases lon with _ | lo
      · rcases lat with _ | la <;>
          simp [get_location_status, get_location_status_attempt,
            location_error_result]
      · exact Option.noConfusion h

/-- C9 witness: a "success" response with no coordinates is an error result
with `at_school = false`. -/
theorem c9_missing_fields_witness :
    (get_location_status (FetchOutcome.returns
      { status := some "success", lat := none, lon := none,
        city := some "Tokyo", country := some "Japan" })).status = "error" ∧
    (get_location_status (FetchOutcome.returns
      { status := some "success", lat := none, lon := none,
        city := some "Tokyo", country := some "Japan" })).at_school = false :=
  (c9_missing_fields
    { status := some "success", lat := none, lon := none,
      city := some "Tokyo", country := some "Japan" } 0 0 none none).2
    rfl (Or.inl rfl)

/-- C7 counterexample: with credentials present, the message the code builds
is a MIMEMultipart container (one attached part), not a single-part
message. -/
theorem c7_counterexample :
    Option.map MimeMessage.single_part
      ((send_professor_email
          { gmail_user := some "user@gmail.com", gmail_password := some "secret" }
          "kubo@logopt.com" "本日の授業について" "body" SmtpOutcome.sends).2.message_built)
      = some false := by
  rfl

/-- C7 (amended): when credentials are present, `send_professor_email`
builds a multipart MIME container holding exactly one plain-text (utf-8)
part — the body — with the fixed From/To/Subject fields, and opens exactly
one SMTP session for it. -/
theorem c7_message_structure (a : Agent)
    (professor_email_address subject body : String) (smtp : SmtpOutcome)
    (hu : falsy a.gmail_user = false) (hp : falsy a.gmail_password = false) :
    (send_professor_email a professor_email_address subject body smtp).2.message_built =
      some { multipart := true
             From := a.gmail_user.getD ""
             To := professor_email_address
             Subject := subject
             parts := [{ content := body, subtype := "plain", charset := "utf-8" }] } ∧
    (send_professor_email a professor_email_address subject body smtp).2.smtp_sessions
      = 1 := by
  rcases smtp with e | _ <;>
    simp [send_professor_email, send_professor_email_attempt, hu, hp]

/-- C7 witness: present credentials produce the one-part message and one
SMTP session. -/
theorem c7_message_structure_witness :
    (send_professor_email { gmail_user := some "u", gmail_password := some "p" }
        "kubo@logopt.com" "s" "b" SmtpOutcome.sends).2.message_built =
      some { multipart := true, From := "u", To := "kubo@logopt.com",
             Subject := "s",
             parts := [{ content := "b", subtype := "plain", charset := "utf-8" }] } ∧
    (send_professor_email { gmail_user := some "u", gmail_password := some "p" }
        "kubo@logopt.com" "s" "b" SmtpOutcome.sends).2.smtp_sessions = 1 :=
  c7_message_structure _ _ _ _ _ rfl rfl
